import Mathlib

/-!
Verification development for the OneGan training-loop orchestration layer
(`onegan/estimator.py`, `onegan/io/transform.py`).

The estimators are embedded shallowly:

* Control-flow and ordering properties of the training / evaluation loops are
  embedded as explicit event traces (`Ev` lists) transcribed statement by
  statement from the Python method bodies.  Caller-supplied staged closures
  are kept abstract as event-list parameters.
* Loss composition (`foward_d` / `foward_g` / `build_criterion`) is embedded
  numerically over `ℚ`, with the collaborator loss functions kept abstract.
* Python-level failure modes (`len(None)`, calling a `bool`, unguarded
  attribute access on `None`) are embedded with `Except PyErr` and an
  explicit attribute-lookup model.
-/

/-- Python exception kinds relevant to the estimator and transform code. -/
inductive PyErr
  | typeError
  | attributeError
  | keyError
  deriving DecidableEq

/-- Boolean success test for an `Except` value (a Python call that did not raise). -/
def exceptIsOk {ε α : Type} : Except ε α → Bool
  | Except.ok _ => true
  | Except.error _ => false

/-- Python `len(x)` where `x` may be `None`: `len(None)` raises `TypeError`. -/
def pyLen {α : Type} : Option (List α) → Except PyErr Nat
  | none => Except.error PyErr.typeError
  | some xs => Except.ok xs.length

/-- Which `History` object of an estimator an event touches: `train` is the
shared `self.history`, `val` is the separate `self.history_val`. -/
inductive HistT
  | train
  | val
  deriving DecidableEq

/-- Input handed to the discriminator network: a fake built from the generator
output (with a flag recording whether that output was detached from its
gradient history) or the real input built from the target. -/
inductive DInput
  | fake (detached : Bool)
  | real
  deriving DecidableEq

/-- Events performed by the estimator loops, one constructor per kind of
side-effecting statement in `onegan/estimator.py`.  The `grad` flag on the
forward events records whether gradient tracking is enabled at that point
(`false` inside a `torch.no_grad()` block). -/
inductive Ev
  | modelTrainMode
  | modelEvalMode
  | noGradEnter
  | noGradExit
  | fetchBatch
  | gForward (grad : Bool)
  | modelForward (grad : Bool)
  | dForward (inp : DInput) (grad : Bool)
  | gradPenaltyEval
  | metricEval
  | dZero
  | dBackward
  | dStep
  | gZero
  | gBackward
  | gStep
  | optimZero
  | optimBackward
  | optimStep
  | histClear (t : HistT)
  | histAdd (t : HistT) (sfx : String)
  | logImage (tag : String)
  | logScalar
  | saveCkpt
  | schedStep
  deriving DecidableEq

/-- Recognizes an optimizer `.step()` event of any of the optimizers. -/
def isOptimStepEv : Ev → Bool
  | Ev.dStep => true
  | Ev.gStep => true
  | Ev.optimStep => true
  | _ => false

/-- Recognizes a `History.add` event. -/
def isHistAddEv : Ev → Bool
  | Ev.histAdd _ _ => true
  | _ => false

/-- Recognizes a `History.add` on the separate evaluation history `self.history_val`. -/
def isHistAddValEv : Ev → Bool
  | Ev.histAdd HistT.val _ => true
  | _ => false

/-- Recognizes an invocation of the discriminator network `dnet`. -/
def isDFwdEv : Ev → Bool
  | Ev.dForward _ _ => true
  | _ => false

/-- Recognizes a batch fetch from the data loader. -/
def isFetchEv : Ev → Bool
  | Ev.fetchBatch => true
  | _ => false

/-- Recognizes a discriminator optimizer step. -/
def isDStepEv : Ev → Bool
  | Ev.dStep => true
  | _ => false

/-- Recognizes a generator optimizer step. -/
def isGStepEv : Ev → Bool
  | Ev.gStep => true
  | _ => false

/-- Index of the first occurrence of event `e` in trace `l`. -/
def idxOf (e : Ev) (l : List Ev) : Nat := l.findIdx (fun x => x == e)

/-- The first occurrence of `a` is strictly before the first occurrence of `b`. -/
def strictOrder (l : List Ev) (a b : Ev) : Prop := idxOf a l < idxOf b l

instance (l : List Ev) (a b : Ev) : Decidable (strictOrder l a b) := by
  unfold strictOrder; infer_instance

/-- Per-batch event trace of the staged-closure driver `OneGANEstimator.train`
(estimator.py lines 227-242).  The caller-supplied generator `update_fn` is
abstract: `s1` is whatever its first stage does (producing `loss_d`), `s2` its
second stage (producing `loss_g`), `s3` its third (accuracy), `s4` its fourth.
The driver runs `optim_d.zero_grad(); next; backward; optim_d.step();
optim_g.zero_grad(); next; backward; optim_g.step(); next; history.add; next`. -/
def ganTrainBatchTrace (s1 s2 s3 s4 : List Ev) : List Ev :=
  [Ev.dZero] ++ s1 ++ [Ev.dBackward, Ev.dStep] ++ [Ev.gZero] ++ s2 ++
    [Ev.gBackward, Ev.gStep] ++ s3 ++ [Ev.histAdd HistT.train ""] ++ s4

/-- Per-batch event trace of `OneGANReadyEstimator.train`
(estimator.py lines 356-377), transcribed in statement order:
`output = gnet(source)`; `foward_d(source, output.detach(), target)` which
invokes `dnet` on the detached fake and then on the real input;
`foward_g(source, output, target)` which invokes `dnet` on the non-detached
fake; `metric`; D optimizer zero/backward/step; G optimizer
zero/backward/step; `history.add`; `logger.image(..., prefix='train_')`. -/
def readyTrainBatchTrace : List Ev :=
  [Ev.gForward true,
   Ev.dForward (DInput.fake true) true,
   Ev.dForward DInput.real true,
   Ev.dForward (DInput.fake false) true,
   Ev.metricEval,
   Ev.dZero, Ev.dBackward, Ev.dStep,
   Ev.gZero, Ev.gBackward, Ev.gStep,
   Ev.histAdd HistT.train "",
   Ev.logImage "train_"]

/-- Claim C1: for every GAN-estimator training batch, the discriminator update
(zero, backward, step) completes before the generator update, and the
discriminator's judgment of the non-detached fake is recomputed only after the
discriminator's optimizer step.  Counterexample: in
`OneGANReadyEstimator.train`, the discriminator's judgment of the non-detached
fake input (inside `foward_g`, line 361) is computed before `d_optim.step()`
(line 366), so the D step does not precede that recomputation. -/
theorem C1_counterexample :
    ¬ strictOrder readyTrainBatchTrace Ev.dStep (Ev.dForward (DInput.fake false) true) := by
  decide

/-- Claim C1, amended: in both GAN estimators the discriminator optimizer
update (zero, backward, step) completes before the generator optimizer update
(zero, backward, step).  In the staged-closure estimator
(`OneGANEstimator.train`) the whole generator stage `s2` — which recomputes
the discriminator's judgment of the non-detached fake — executes strictly
after D's optimizer step, as exhibited by the trace decomposition.  In
`OneGANReadyEstimator.train`, however, the discriminator's judgment of the
non-detached fake input is computed before D's optimizer step (both losses
are computed up front, then both optimizers step). -/
theorem C1_amended_ordering :
    (∀ s1 s2 s3 s4 : List Ev, ∃ tail,
      ganTrainBatchTrace s1 s2 s3 s4 =
        [Ev.dZero] ++ s1 ++ [Ev.dBackward, Ev.dStep] ++ [Ev.gZero] ++ s2 ++ tail) ∧
    strictOrder readyTrainBatchTrace Ev.dZero Ev.dBackward ∧
    strictOrder readyTrainBatchTrace Ev.dBackward Ev.dStep ∧
    strictOrder readyTrainBatchTrace Ev.dStep Ev.gZero ∧
    strictOrder readyTrainBatchTrace Ev.gZero Ev.gBackward ∧
    strictOrder readyTrainBatchTrace Ev.gBackward Ev.gStep ∧
    strictOrder readyTrainBatchTrace (Ev.dForward (DInput.fake false) true) Ev.dStep := by
  refine ⟨fun s1 s2 s3 s4 => ⟨[Ev.gBackward, Ev.gStep] ++ s3 ++ [Ev.histAdd HistT.train ""] ++ s4, ?_⟩,
    by decide, by decide, by decide, by decide, by decide, by decide⟩
  simp [ganTrainBatchTrace]

/-- Claim C2: in plain-GAN mode one training batch invokes the discriminator
exactly twice.  Counterexample: in `OneGANReadyEstimator.train` the
discriminator network is invoked three times per batch — `foward_d` calls
`dnet` on the detached fake and on the real input, and `foward_g` calls it
once more on the non-detached fake. -/
theorem C2_counterexample :
    ¬ (readyTrainBatchTrace.countP isDFwdEv = 2) := by
  decide

/-- Claim C2, amended: one plain-GAN training batch invokes the discriminator
network exactly three times — on the detached fake and on the real input
during the discriminator step, and on the non-detached fake during the
generator step — and the discriminator step never receives a generator output
retaining gradient history (its fake input is built from the detached
generator output). -/
theorem C2_discriminator_calls :
    readyTrainBatchTrace.countP isDFwdEv = 3 ∧
    readyTrainBatchTrace.filter isDFwdEv =
      [Ev.dForward (DInput.fake true) true,
       Ev.dForward DInput.real true,
       Ev.dForward (DInput.fake false) true] := by
  exact ⟨by decide, by decide⟩

/-- Scalar loss terms returned by the plain `OneGANReadyEstimator.foward_d`
(estimator.py lines 328-335).  The collaborator adversarial-loss outputs
`adv_loss(dnet(fake), False)` and `adv_loss(dnet(real), True)` enter as the
scalars `d_fake` and `d_real`; the method composes them into
`d/loss = d_real + d_fake`. -/
structure DTerms where
  d_real : ℚ
  d_fake : ℚ
  d_loss : ℚ
  deriving DecidableEq

namespace OneGANReadyEstimator

/-- Reconstruction weight fixed by `OneGANReadyEstimator.build_criterion`
(estimator.py line 324): `self.recon_weight = 10`. -/
def recon_weight : ℚ := 10

/-- Scalar composition performed by `OneGANReadyEstimator.foward_d`
(estimator.py lines 328-335). -/
def foward_d (d_real d_fake : ℚ) : DTerms :=
  ⟨d_real, d_fake, d_real + d_fake⟩

end OneGANReadyEstimator

/-- Scalar loss terms returned by the Wasserstein override
`OneWGANReadyEstimator.foward_d` (estimator.py lines 415-423), which adds the
gradient-penalty scalar `d_gp`. -/
structure WDTerms where
  d_real : ℚ
  d_fake : ℚ
  d_gp : ℚ
  d_loss : ℚ
  deriving DecidableEq

namespace OneWGANReadyEstimator

/-- Default critic/generator iteration ratio set in
`OneWGANReadyEstimator.__init__` (estimator.py line 407): `self.critic_iters = 5`. -/
def critic_iters : Nat := 5

/-- Gradient-penalty weight fixed by `OneWGANReadyEstimator.build_criterion`
(estimator.py line 411): `self.gp_weight = 10`. -/
def gp_weight : ℚ := 10

/-- Reconstruction weight fixed by `OneWGANReadyEstimator.build_criterion`
(estimator.py line 410): `self.recon_weight = 10`. -/
def recon_weight : ℚ := 10

/-- Scalar composition performed by the Wasserstein
`OneWGANReadyEstimator.foward_d` (estimator.py lines 415-423):
`d/loss = d_real + d_fake + self.gp_weight * d_gp`. -/
def foward_d (d_real d_fake d_gp : ℚ) : WDTerms :=
  ⟨d_real, d_fake, d_gp, d_real + d_fake + gp_weight * d_gp⟩

end OneWGANReadyEstimator

/-- One critic (discriminator-only) update of `OneWGANReadyEstimator.train`
(estimator.py lines 435-442): fetch a fresh batch, run the generator and
detach its output, invoke `dnet` on the detached fake and on the real input,
evaluate the gradient penalty, then zero/backward/step the D optimizer. -/
def wganCriticIterTrace : List Ev :=
  [Ev.fetchBatch,
   Ev.gForward true,
   Ev.dForward (DInput.fake true) true,
   Ev.dForward DInput.real true,
   Ev.gradPenaltyEval,
   Ev.dZero, Ev.dBackward, Ev.dStep]

/-- The generator update that closes one outer iteration of
`OneWGANReadyEstimator.train` (estimator.py lines 444-458): fetch a fresh
batch, run the generator (no detach), invoke `dnet` on the non-detached fake
inside `foward_g`, zero/backward/step the G optimizer, compute the metric,
fold the losses into the history, log images. -/
def wganGenTrace : List Ev :=
  [Ev.fetchBatch,
   Ev.gForward true,
   Ev.dForward (DInput.fake false) true,
   Ev.gZero, Ev.gBackward, Ev.gStep,
   Ev.metricEval,
   Ev.histAdd HistT.train "",
   Ev.logImage "train_"]

/-- The critic-only phase of one outer iteration: `critic_iters = k`
consecutive discriminator updates (estimator.py lines 435-442). -/
def wganCriticPhase (k : Nat) : List Ev :=
  (List.replicate k wganCriticIterTrace).flatten

/-- One full outer iteration of `OneWGANReadyEstimator.train`
(estimator.py lines 433-458) with `critic_iters = k`. -/
def wganOuterIterTrace (k : Nat) : List Ev :=
  wganCriticPhase k ++ wganGenTrace

/-- Boolean complement of being the generator optimizer step. -/
def notGStepB (e : Ev) : Bool := !(e == Ev.gStep)

theorem wganCriticPhase_succ (k : Nat) :
    wganCriticPhase (k + 1) = wganCriticIterTrace ++ wganCriticPhase k := by
  simp [wganCriticPhase, List.replicate_succ]

theorem countP_wganCriticPhase (p : Ev → Bool) (k : Nat) :
    (wganCriticPhase k).countP p = k * wganCriticIterTrace.countP p := by
  induction k with
  | zero => simp [wganCriticPhase]
  | succ n ih =>
      rw [wganCriticPhase_succ, List.countP_append, ih]
      ring

theorem takeWhile_criticIter_append (l : List Ev) :
    ((wganCriticIterTrace ++ l).takeWhile notGStepB) =
      wganCriticIterTrace ++ l.takeWhile notGStepB := by
  rfl

theorem takeWhile_criticPhase_append (k : Nat) (l : List Ev) :
    ((wganCriticPhase k ++ l).takeWhile notGStepB) =
      wganCriticPhase k ++ l.takeWhile notGStepB := by
  induction k with
  | zero => simp [wganCriticPhase]
  | succ n ih =>
      rw [wganCriticPhase_succ, List.append_assoc, takeWhile_criticIter_append, ih,
        List.append_assoc]

/-- Claim C3: with `critic_iters = k` (default 5), every full outer iteration
of the Wasserstein estimator consumes exactly `k + 1` batches, performs
exactly `k` discriminator optimizer steps, all of them before the single
generator optimizer step; every critic update sees only a detached generator
output (no `dnet` invocation on a non-detached fake occurs in the critic
phase); and the discriminator loss adds the weighted gradient-penalty term to
the plain discriminator loss, with `gp_weight = 10`. -/
theorem C3_wasserstein_schedule (k : Nat) (dr df dgp : ℚ) :
    OneWGANReadyEstimator.critic_iters = 5 ∧
    (wganOuterIterTrace k).countP isFetchEv = k + 1 ∧
    (wganOuterIterTrace k).countP isDStepEv = k ∧
    (wganOuterIterTrace k).countP isGStepEv = 1 ∧
    ((wganOuterIterTrace k).takeWhile notGStepB).countP isDStepEv = k ∧
    (wganCriticPhase k).countP (fun e => e == Ev.dForward (DInput.fake false) true) = 0 ∧
    (wganCriticPhase k).countP (fun e => e == Ev.dForward (DInput.fake true) true) = k ∧
    (OneWGANReadyEstimator.foward_d dr df dgp).d_loss =
      (OneGANReadyEstimator.foward_d dr df).d_loss + OneWGANReadyEstimator.gp_weight * dgp := by
  have hf1 : wganCriticIterTrace.countP isFetchEv = 1 := by decide
  have hf2 : wganGenTrace.countP isFetchEv = 1 := by decide
  have hd1 : wganCriticIterTrace.countP isDStepEv = 1 := by decide
  have hd2 : wganGenTrace.countP isDStepEv = 0 := by decide
  have hg1 : wganCriticIterTrace.countP isGStepEv = 0 := by decide
  have hg2 : wganGenTrace.countP isGStepEv = 1 := by decide
  have hd3 : (wganGenTrace.takeWhile notGStepB).countP isDStepEv = 0 := by decide
  have hnd : wganCriticIterTrace.countP
      (fun e => e == Ev.dForward (DInput.fake false) true) = 0 := by decide
  have hdt : wganCriticIterTrace.countP
      (fun e => e == Ev.dForward (DInput.fake true) true) = 1 := by decide
  refine ⟨rfl, ?_, ?_, ?_, ?_, ?_, ?_, ?_⟩
  · rw [wganOuterIterTrace, List.countP_append, countP_wganCriticPhase, hf1, hf2]
    omega
  · rw [wganOuterIterTrace, List.countP_append, countP_wganCriticPhase, hd1, hd2]
    omega
  · rw [wganOuterIterTrace, List.countP_append, countP_wganCriticPhase, hg1, hg2]
    omega
  · rw [wganOuterIterTrace, takeWhile_criticPhase_append, List.countP_append,
      countP_wganCriticPhase, hd1, hd3]
    omega
  · rw [countP_wganCriticPhase, hnd]
    omega
  · rw [countP_wganCriticPhase, hdt]
    omega
  · simp [OneWGANReadyEstimator.foward_d, OneGANReadyEstimator.foward_d]

/-- Attribute names assigned on `self` by `OneGANEstimator.__init__`
(estimator.py lines 169-183), in assignment order.  The scheduler pair is
stored under `schedulers` (and unpacked into `sched_g` / `sched_d`); no
attribute named `lr_scheduler` is ever assigned on this class. -/
def oneGANEstimatorAttrNames : List String :=
  ["models", "schedulers", "model_g", "model_d", "optim_g", "optim_d",
   "saver", "logger", "sched_g", "sched_d", "name", "history", "history_val",
   "state", "log"]

/-- Python `hasattr(self, nm)` for a freshly constructed `OneGANEstimator`. -/
def ganEstimatorHasattr (nm : String) : Bool := oneGANEstimatorAttrNames.contains nm

/-- A learning-rate-scheduler step performed by `adjust_learning_rate`:
either a monitored `sched.step(value)` on the scheduler at index `i`, or an
unconditional `sched.step()` from the `except` fallback. -/
inductive SchedStepEv
  | monitored (i : Nat) (v : ℚ)
  | unconditional (i : Nat)
  deriving DecidableEq

/-- Lookup `self.history[key]` as an optional value; a missing key makes the
subscript raise, which is the failure mode the `except` clause catches. -/
def historyLookup (hist : List (String × ℚ)) (k : String) : Option ℚ :=
  (hist.find? (fun p => p.1 == k)).map (fun p => p.2)

namespace OneGANEstimator

/-- The `try` loop of `OneGANEstimator.adjust_learning_rate` (estimator.py
lines 212-217) over `zip(self.schedulers, monitor_vals)` (schedulers are
represented by their indices `0 .. n-1`): each iteration steps one scheduler
with its monitored history value; as soon as a lookup raises, the `except`
clause steps every scheduler unconditionally (steps already performed in the
`try` block are not undone). -/
def adjustTryLoop (hist : List (String × ℚ)) (n : Nat) :
    List (Nat × String) → List SchedStepEv
  | [] => []
  | p :: ps =>
    match historyLookup hist p.2 with
    | some v => SchedStepEv.monitored p.1 v :: adjustTryLoop hist n ps
    | none => (List.range n).map SchedStepEv.unconditional

/-- `OneGANEstimator.adjust_learning_rate` (estimator.py lines 209-217) with
the guard condition made explicit: the method returns immediately when
`hasattr(self, 'lr_scheduler')` is false or `self.lr_scheduler is None`;
otherwise it runs the `try` loop over `zip(self.schedulers, monitor_vals)`. -/
def adjust_learning_rate (has_attr lr_none : Bool) (n : Nat)
    (hist : List (String × ℚ)) (monitor_vals : List String) : List SchedStepEv :=
  if !has_attr || lr_none then []
  else adjustTryLoop hist n ((List.range n).zip monitor_vals)

/-- `adjust_learning_rate` as it executes on an instance produced by
`OneGANEstimator.__init__`: the guard reads `hasattr(self, 'lr_scheduler')`
over the attributes the constructor actually set. -/
def adjust_learning_rate_as_constructed (n : Nat) (hist : List (String × ℚ))
    (monitor_vals : List String) : List SchedStepEv :=
  adjust_learning_rate (ganEstimatorHasattr "lr_scheduler") false n hist monitor_vals

end OneGANEstimator

/-- Claim C4 (code bug): the multi-network estimator is supposed to advance
each scheduler with its monitored validation-loss key, falling back to
unconditional steps when the monitored step raises.  The `try`/`except` body
does implement exactly that (third conjunct: with an empty history both
schedulers get the unconditional fallback step), but the guard tests
`hasattr(self, 'lr_scheduler')` while `__init__` stores the schedulers under
`self.schedulers` and never sets `self.lr_scheduler`, so on every instance the
method returns immediately and no scheduler is ever stepped (second
conjunct). -/
theorem C4_scheduler_never_stepped (n : Nat) (hist : List (String × ℚ))
    (mvs : List String) :
    ganEstimatorHasattr "lr_scheduler" = false ∧
    OneGANEstimator.adjust_learning_rate_as_constructed n hist mvs = [] ∧
    OneGANEstimator.adjust_learning_rate true false 2 []
        ["loss/loss_g_val", "loss/loss_d_val"] =
      [SchedStepEv.unconditional 0, SchedStepEv.unconditional 1] := by
  exact ⟨rfl, rfl, rfl⟩

/-- One `self.logger.scalar(...)` call site in `OneGANEstimator.run`
(estimator.py lines 190 and 193): the call is not guarded, so when the logger
collaborator is absent (`None`) it raises `AttributeError`. -/
def ganLoggerScalarCall (logger : Option Unit) : Except PyErr (List Ev) :=
  match logger with
  | some _ => Except.ok [Ev.logScalar]
  | none => Except.error PyErr.attributeError

/-- `OneGANEstimator.save_checkpoint` (estimator.py lines 204-207): guarded by
`hasattr` / `is None`, so a missing saver is silently skipped. -/
def ganSaveCheckpointCall (saver : Option Unit) : List Ev :=
  match saver with
  | some _ => [Ev.saveCkpt]
  | none => []

/-- Collaborator-facing calls of one epoch of `OneGANEstimator.run`
(estimator.py lines 185-197): two unguarded `logger.scalar` calls (after the
train and evaluate passes), the guarded `save_checkpoint`, and
`adjust_learning_rate`, whose guard makes it contribute no scheduler call. -/
def ganRunEpochCollabs (logger saver : Option Unit) : Except PyErr (List Ev) := do
  let a ← ganLoggerScalarCall logger
  let b ← ganLoggerScalarCall logger
  Except.ok (a ++ b ++ ganSaveCheckpointCall saver)

/-- Optional-extension calls at the end of one `OneEstimator.run` epoch
(estimator.py lines 140-143): `tensorboard_epoch_logging` (guarded on
`self.logger`), `save_checkpoint` (guarded on `self.saver`), and
`adjust_learning_rate` (guarded on `self.lr_scheduler`, which
`OneEstimator.__init__` does set).  Every guard silently skips a missing
collaborator, so none of these call sites can raise on account of one. -/
def oneRunEpochCollabs (logger saver sched : Option Unit) : Except PyErr (List Ev) :=
  Except.ok
    ((match logger with | some _ => [Ev.logScalar] | none => []) ++
     (match saver with | some _ => [Ev.saveCkpt] | none => []) ++
     (match sched with | some _ => [Ev.schedStep] | none => []))

/-- Claim C5: every estimator guards every optional-collaborator call site, so
`run()` raises no error when a collaborator is missing.  Counterexample: in
`OneGANEstimator.run` the `logger.scalar` calls are unguarded, so running one
epoch with no logger configured raises `AttributeError`. -/
theorem C5_counterexample :
    ganRunEpochCollabs none none = Except.error PyErr.attributeError := rfl

/-- Claim C5, amended: in `OneEstimator` every optional-collaborator call site
(logger, saver, scheduler) is guarded and silently skipped when the
collaborator is `None`, and its epoch-end extension calls never raise; in
`OneGANEstimator` the saver call site is guarded (and the scheduler guard
trivially skips), but `run()` invokes `logger.scalar` unguarded, so an epoch
with a missing logger raises `AttributeError` while an epoch with a logger
present succeeds whether or not a saver is configured. -/
theorem C5_collaborator_guards :
    (∀ logger saver sched : Option Unit,
      exceptIsOk (oneRunEpochCollabs logger saver sched) = true) ∧
    oneRunEpochCollabs none none none = Except.ok [] ∧
    (∀ saver : Option Unit,
      ganRunEpochCollabs none saver = Except.error PyErr.attributeError) ∧
    ganRunEpochCollabs (some ()) none = Except.ok [Ev.logScalar, Ev.logScalar] ∧
    ganRunEpochCollabs (some ()) (some ()) =
      Except.ok [Ev.logScalar, Ev.logScalar, Ev.saveCkpt] := by
  exact ⟨fun logger saver sched => rfl, rfl, fun saver => rfl, rfl, rfl⟩

/-- A `torch.no_grad()` block around the events `l`. -/
def noGradBlock (l : List Ev) : List Ev := Ev.noGradEnter :: (l ++ [Ev.noGradExit])

/-- The per-batch loop body of an evaluation pass over `n` batches: the
closure events `c`, then `history.add(status, log_suffix='_val')` on the
shared `self.history`. -/
def evalLoopBody (c : List Ev) (n : Nat) : List Ev :=
  (List.replicate n (c ++ [Ev.histAdd HistT.train "_val"])).flatten

/-- Event trace of `OneEstimator.evaluate` (estimator.py lines 157-164) over a
loader with `n` batches and caller-supplied inference closure `c`:
`model.eval()`, then under `torch.no_grad()` each batch runs the closure and
folds its status into `self.history` with the `_val` suffix.  No optimizer
method is called by this driver. -/
def oneEvaluateTrace (c : List Ev) (n : Nat) : List Ev :=
  Ev.modelEvalMode :: noGradBlock (evalLoopBody c n)

/-- Event trace of `OneGANEstimator.evaluate` (estimator.py lines 245-259)
over a loader with `n` batches and staged inference closure events `s` (the
four stages concatenated): `model_g.eval()`, `model_d.eval()`,
`self.history.clear()`, then under `torch.no_grad()` each batch exhausts the
staged closure and folds its status into `self.history` — not into
`self.history_val` — with the `_val` suffix.  No optimizer method is called
by this driver. -/
def ganEvaluateTrace (s : List Ev) (n : Nat) : List Ev :=
  Ev.modelEvalMode :: Ev.modelEvalMode :: Ev.histClear HistT.train ::
    noGradBlock (evalLoopBody s n)

theorem countP_flatten_replicate (p : Ev → Bool) (l : List Ev) (n : Nat) :
    ((List.replicate n l).flatten).countP p = n * l.countP p := by
  induction n with
  | zero => simp
  | succ m ih =>
      rw [List.replicate_succ, List.flatten_cons, List.countP_append, ih]
      ring

theorem countP_le_of_imp (p q : Ev → Bool) (l : List Ev)
    (h : ∀ e, p e = true → q e = true) : l.countP p ≤ l.countP q := by
  induction l with
  | nil => simp
  | cons a t ih =>
      rw [List.countP_cons, List.countP_cons]
      by_cases hp : p a = true
      · rw [hp, h a hp]
        omega
      · have : p a = false := by
          cases hpa : p a
          · rfl
          · exact absurd hpa hp
        rw [this]
        cases q a <;> simp <;> omega

/-- Concrete inference-closure events used to instantiate the evaluation-pass
theorems: the forward computations of the GAN protocol with gradient tracking
disabled. -/
def evalStagesDemo : List Ev :=
  [Ev.gForward false,
   Ev.dForward (DInput.fake true) false,
   Ev.dForward DInput.real false,
   Ev.dForward (DInput.fake false) false,
   Ev.metricEval]

/-- Concrete single-model inference-closure events used to instantiate the
evaluation-pass theorems. -/
def evalClosureDemo : List Ev := [Ev.modelForward false]

/-- Claim C6: during an evaluation pass each batch's status is folded into the
evaluation RunningHistory under the `_val` suffix.  Counterexample:
`OneGANEstimator.evaluate` over a one-batch loader performs no
`History.add` on the separate evaluation history `self.history_val` at all
(it folds into the shared `self.history` instead). -/
theorem C6_counterexample :
    ¬ (1 ≤ (ganEvaluateTrace evalStagesDemo 1).countP isHistAddValEv) := by
  decide

/-- Claim C6, amended: during an evaluation pass over a loader with `n`
batches (closure events containing no optimizer step and no history fold of
their own), no optimizer step is invoked, all computations of the batch loop
run inside the `torch.no_grad()` block, and each batch's status is folded
with the `_val` suffix into the shared `self.history` — the same `History`
object used for training (which `OneGANEstimator.evaluate` clears first) —
not into the separate `self.history_val`. -/
theorem C6_evaluation_pass (c s : List Ev) (n : Nat)
    (hc1 : c.countP isOptimStepEv = 0) (hc2 : c.countP isHistAddEv = 0)
    (hs1 : s.countP isOptimStepEv = 0) (hs2 : s.countP isHistAddEv = 0) :
    (oneEvaluateTrace c n).countP isOptimStepEv = 0 ∧
    (ganEvaluateTrace s n).countP isOptimStepEv = 0 ∧
    oneEvaluateTrace c n = Ev.modelEvalMode :: noGradBlock (evalLoopBody c n) ∧
    ganEvaluateTrace s n = Ev.modelEvalMode :: Ev.modelEvalMode ::
      Ev.histClear HistT.train :: noGradBlock (evalLoopBody s n) ∧
    (oneEvaluateTrace c n).countP isHistAddEv = n ∧
    (ganEvaluateTrace s n).countP isHistAddEv = n ∧
    (oneEvaluateTrace c n).countP (fun e => e == Ev.histAdd HistT.train "_val") = n ∧
    (ganEvaluateTrace s n).countP (fun e => e == Ev.histAdd HistT.train "_val") = n ∧
    (ganEvaluateTrace s n).countP isHistAddValEv = 0 := by
  have hval : ∀ e : Ev, isHistAddValEv e = true → isHistAddEv e = true := by
    intro e he
    cases e <;> simp_all [isHistAddValEv, isHistAddEv]
  have heq : ∀ e : Ev, (e == Ev.histAdd HistT.train "_val") = true →
      isHistAddEv e = true := by
    intro e he
    have : e = Ev.histAdd HistT.train "_val" := by
      exact eq_of_beq he
    rw [this]
    rfl
  have hc3 : c.countP (fun e => e == Ev.histAdd HistT.train "_val") = 0 := by
    have := countP_le_of_imp (fun e => e == Ev.histAdd HistT.train "_val") isHistAddEv c heq
    omega
  have hs3 : s.countP (fun e => e == Ev.histAdd HistT.train "_val") = 0 := by
    have := countP_le_of_imp (fun e => e == Ev.histAdd HistT.train "_val") isHistAddEv s heq
    omega
  have hs4 : s.countP isHistAddValEv = 0 := by
    have := countP_le_of_imp isHistAddValEv isHistAddEv s hval
    omega
  refine ⟨?_, ?_, rfl, rfl, ?_, ?_, ?_, ?_, ?_⟩ <;>
    simp [oneEvaluateTrace, ganEvaluateTrace, noGradBlock, evalLoopBody,
      List.countP_cons, List.countP_append, countP_flatten_replicate,
      hc1, hc2, hc3, hs1, hs2, hs3, hs4, isOptimStepEv, isHistAddEv, isHistAddValEv,
      beq_iff_eq]

/-- Witness for the evaluation-pass theorem at concrete inputs: the
single-model closure is one no-grad forward, the GAN staged closure is the
five no-grad forward computations of the protocol, over a one-batch loader. -/
theorem C6_evaluation_pass_witness :
    (evalClosureDemo.countP isOptimStepEv = 0 ∧
     evalClosureDemo.countP isHistAddEv = 0 ∧
     evalStagesDemo.countP isOptimStepEv = 0 ∧
     evalStagesDemo.countP isHistAddEv = 0) ∧
    ((oneEvaluateTrace evalClosureDemo 1).countP isOptimStepEv = 0 ∧
     (ganEvaluateTrace evalStagesDemo 1).countP isOptimStepEv = 0 ∧
     oneEvaluateTrace evalClosureDemo 1 =
       Ev.modelEvalMode :: noGradBlock (evalLoopBody evalClosureDemo 1) ∧
     ganEvaluateTrace evalStagesDemo 1 = Ev.modelEvalMode :: Ev.modelEvalMode ::
       Ev.histClear HistT.train :: noGradBlock (evalLoopBody evalStagesDemo 1) ∧
     (oneEvaluateTrace evalClosureDemo 1).countP isHistAddEv = 1 ∧
     (ganEvaluateTrace evalStagesDemo 1).countP isHistAddEv = 1 ∧
     (oneEvaluateTrace evalClosureDemo 1).countP
       (fun e => e == Ev.histAdd HistT.train "_val") = 1 ∧
     (ganEvaluateTrace evalStagesDemo 1).countP
       (fun e => e == Ev.histAdd HistT.train "_val") = 1 ∧
     (ganEvaluateTrace evalStagesDemo 1).countP isHistAddValEv = 0) :=
  ⟨⟨by decide, by decide, by decide, by decide⟩,
   C6_evaluation_pass evalClosureDemo evalStagesDemo 1
     (by decide) (by decide) (by decide) (by decide)⟩

/-- Input assembled for the discriminator by `losses.conditional_input`.
Modelled from the spec: `onegan/loss.py` is not under `src/`; per spec
section 4.3 the fake input is built from `(source, output)` in the
conditional setting and from the generator output alone otherwise. -/
inductive CondInput (T : Type)
  | pair (s x : T)
  | single (x : T)

/-- Modelled from the spec: `losses.conditional_input(source, x, conditional)`
(the `onegan/loss.py` module is not under `src/`). -/
def conditional_input {T : Type} (source x : T) (conditional : Bool) : CondInput T :=
  if conditional then CondInput.pair source x else CondInput.single x

/-- The named scalar terms produced by `OneGANReadyEstimator.foward_g`
(estimator.py lines 337-342): `g/recon`, `g/adv`, `g/loss`. -/
structure GTerms where
  recon : ℚ
  adv : ℚ
  loss : ℚ
  deriving DecidableEq

namespace OneGANReadyEstimator

/-- `OneGANReadyEstimator.foward_g` (estimator.py lines 337-342) with the
collaborator loss functions abstract: `recon = self.recon_loss(output,
target)`; `adv = self.adv_loss(self.dnet(losses.conditional_input(source,
output, self.conditional)), True)` — the generator output enters `dnet`
without detaching and labeled as real; `g/loss = recon * self.recon_weight +
adv`. -/
def foward_g {T R : Type} (recon_weight : ℚ) (recon_loss : T → T → ℚ)
    (adv_loss : R → Bool → ℚ) (dnet : CondInput T → R) (conditional : Bool)
    (source output target : T) : GTerms :=
  ⟨recon_loss output target,
   adv_loss (dnet (conditional_input source output conditional)) true,
   recon_loss output target * recon_weight +
     adv_loss (dnet (conditional_input source output conditional)) true⟩

end OneGANReadyEstimator

/-- Claim C7: for every batch, `g/loss` equals the reconstruction loss between
output and target multiplied by the fixed reconstruction weight — which
`build_criterion` sets to 10 — plus the adversarial loss of the
discriminator's judgment of the non-detached fake input labeled as real. -/
theorem C7_generator_loss {T R : Type} (recon_loss : T → T → ℚ)
    (adv_loss : R → Bool → ℚ) (dnet : CondInput T → R) (conditional : Bool)
    (source output target : T) :
    OneGANReadyEstimator.recon_weight = 10 ∧
    (OneGANReadyEstimator.foward_g OneGANReadyEstimator.recon_weight recon_loss
        adv_loss dnet conditional source output target).loss =
      recon_loss output target * 10 +
        adv_loss (dnet (conditional_input source output conditional)) true := by
  constructor
  · rfl
  · simp [OneGANReadyEstimator.foward_g, OneGANReadyEstimator.recon_weight]

/-- Modelled from the spec: the `Checkpoint` collaborator lives in
`onegan/extension.py`, which is not under `src/`; per spec sections 4.3 and 8
a save is performed exactly at epochs `save_epochs, 2 * save_epochs, ...`
(default stride 5) and at no other epoch. -/
def checkpoint_should_save (save_epochs epoch : Nat) : Bool :=
  epoch % save_epochs == 0 && epoch != 0

/-- Epoch numbers at which a run of `Estimator.run` (estimator.py lines
37-48) persists a checkpoint: the driver calls `self.save_checkpoint(epoch)`
for every `epoch` in `range(epochs)` and the saver applies the stride. -/
def estimatorRunSaves (epochs save_epochs : Nat) : List Nat :=
  (List.range epochs).filter (fun e => checkpoint_should_save save_epochs e)

/-- Epoch numbers at which a run of `OneEstimator.run` persists a checkpoint:
`OneEstimator.save_checkpoint` (estimator.py lines 112-115) passes
`self.state['epoch'] + 1` to the saver, once per epoch of `run`
(estimator.py lines 125-144). -/
def oneEstimatorRunSaves (epochs save_epochs : Nat) : List Nat :=
  ((List.range epochs).map (fun e => e + 1)).filter
    (fun e => checkpoint_should_save save_epochs e)

/-- Claim C8: with the default `save_epochs = 5`, the checkpoint save fires
exactly at epochs 5, 10, 15, ... and at no other epoch boundary; a 12-epoch
run produces exactly 2 save invocations (shown for both run drivers), a
16-epoch run of the base driver produces 3, and a short 4-epoch run produces
none. -/
theorem C8_checkpoint_cadence :
    estimatorRunSaves 12 5 = [5, 10] ∧
    (estimatorRunSaves 12 5).length = 2 ∧
    oneEstimatorRunSaves 12 5 = [5, 10] ∧
    (oneEstimatorRunSaves 12 5).length = 2 ∧
    estimatorRunSaves 16 5 = [5, 10, 15] ∧
    estimatorRunSaves 4 5 = [] := by
  exact ⟨by decide, by decide, by decide, by decide, by decide, by decide⟩

/-- Post-construction snapshot of the sizes `OneGANEstimator.__init__`
computed. -/
structure OneGANEstimatorInitState where
  n_models : Nat
  optim_given : Bool
  n_schedulers : Nat
  deriving DecidableEq

namespace OneGANEstimator

/-- `OneGANEstimator.__init__` (estimator.py lines 169-183), reduced to the
operations that can raise, in evaluation order: `len(model)` (line 172,
unconditional), the truthiness test `optimizer if optimizer else (None,
None)` (line 173 — no `len` applied), and `len(lr_scheduler)` (line 176,
unconditional, so `lr_scheduler=None` raises `TypeError` before any training
can occur). -/
def init {M O S : Type} (model : Option (List M)) (optimizer : Option (List O))
    (lr_scheduler : Option (List S)) : Except PyErr OneGANEstimatorInitState := do
  let nm ← pyLen model
  let og := match optimizer with
    | some os => !os.isEmpty
    | none => false
  let ns ← pyLen lr_scheduler
  Except.ok ⟨nm, og, ns⟩

end OneGANEstimator

/-- Claim C9: constructing `OneGANEstimator` with `lr_scheduler` left at its
default `None` raises `TypeError` (for any model pair and any optimizer
argument), because `len()` is applied to `lr_scheduler` unconditionally;
`optimizer=None`, by contrast, is accepted — construction with a two-element
scheduler sequence and no optimizer succeeds. -/
theorem C9_lr_scheduler_mandatory :
    (∀ (m : List Unit) (o : Option (List Unit)),
      OneGANEstimator.init (some m) o (none : Option (List Unit)) =
        Except.error PyErr.typeError) ∧
    (∃ st, OneGANEstimator.init (some [(), ()]) (none : Option (List Unit))
        (some [(), ()]) = Except.ok st) := by
  exact ⟨fun m o => rfl, ⟨⟨2, false, 2⟩, rfl⟩⟩

/-- Values living in Python attribute slots of `SegmentationPair`: a boolean
flag, an opaque non-callable object, or a class-level method. -/
inductive PyVal
  | boolV (b : Bool)
  | objV
  | methodV (nm : String)
  deriving DecidableEq

/-- Instance attributes set by `SegmentationPair.__init__` (transform.py
lines 16-23), in assignment order: the constructor stores the boolean flags
under the very names `random_flip` and `random_crop` that the class methods
use. -/
def segPairFields (random_flip random_crop : Bool) : List (String × PyVal) :=
  [("target_size", PyVal.objV),
   ("final_transform", PyVal.objV),
   ("random_flip", PyVal.boolV random_flip),
   ("random_crop", PyVal.boolV random_crop)]

/-- Class-level attributes of `SegmentationPair` (its methods, transform.py
lines 25-54). -/
def segPairMethods : List (String × PyVal) :=
  [("_transform", PyVal.methodV "_transform"),
   ("random_flip", PyVal.methodV "random_flip"),
   ("random_crop", PyVal.methodV "random_crop")]

/-- Python attribute lookup on an instance: the instance `__dict__` is
consulted before the class attributes, so instance attributes shadow methods
of the same name. -/
def pyGetattr (inst cls : List (String × PyVal)) (nm : String) : Option PyVal :=
  match inst.find? (fun p => p.1 == nm) with
  | some p => some p.2
  | none => (cls.find? (fun p => p.1 == nm)).map (fun p => p.2)

/-- Calling a looked-up attribute value: only a method is callable; calling a
boolean (or any other non-callable) raises `TypeError`. -/
def pyCallValue (v : PyVal) : Except PyErr Unit :=
  match v with
  | PyVal.methodV _ => Except.ok ()
  | _ => Except.error PyErr.typeError

/-- Result of an attribute lookup as Python sees it: a missing attribute
raises `AttributeError`. -/
def pyAttr (v : Option PyVal) : Except PyErr PyVal :=
  match v with
  | some w => Except.ok w
  | none => Except.error PyErr.attributeError

namespace SegmentationPair

/-- `SegmentationPair.__call__` (transform.py lines 25-35), reduced to its
attribute lookups and calls: after the pure image conversions it evaluates
`self.random_flip(image, segment)` and then `self.random_crop(image,
segment)`; each is an attribute lookup on the instance followed by a call of
the resulting value.  The resize and `_transform` steps are only reached if
both calls succeed. -/
def call {α : Type} (random_flip random_crop : Bool) (image segmentation : α) :
    Except PyErr (α × α) := do
  let f ← pyAttr (pyGetattr (segPairFields random_flip random_crop)
    segPairMethods "random_flip")
  let _ ← pyCallValue f
  let g ← pyAttr (pyGetattr (segPairFields random_flip random_crop)
    segPairMethods "random_crop")
  let _ ← pyCallValue g
  Except.ok (image, segmentation)

end SegmentationPair

/-- Claim C10: for every image/segmentation pair and every combination of the
constructor flags, `SegmentationPair.__call__` raises `TypeError`: the
instance attribute `random_flip` (a boolean stored by `__init__`) shadows the
method of the same name, so `self.random_flip(image, segment)` attempts to
call a boolean. -/
theorem C10_segmentation_pair_type_error {α : Type} (random_flip random_crop : Bool)
    (image segmentation : α) :
    pyGetattr (segPairFields random_flip random_crop) segPairMethods "random_flip" =
      some (PyVal.boolV random_flip) ∧
    SegmentationPair.call random_flip random_crop image segmentation =
      Except.error PyErr.typeError := by
  exact ⟨rfl, rfl⟩
